import Mathlib

-- Verification of the comparison-generation core of the picture-lab-lxm
-- repository: a shallow embedding, in Lean 4, of the command-fragment
-- builders (src/libraries/lxmpicturelab/oiiotoolio.py), the renderer
-- descriptor (src/libraries/lxmpicturelab/renderer/_config.py and
-- src/libraries/lxmpicturelab/renderer/_builders.py) and the comparison
-- session model (src/libraries/lxmpicturelab/comparison.py).
--
-- Modeling conventions:
--  * Python floats are modeled as exact rationals.  Every numeric value
--    handled by the embedded code (0.2, 0.45, 1/band_width, round(x, 2),
--    and so on) is an exact dyadic or small decimal value on which IEEE
--    double arithmetic is exact or rounds identically, so the rational
--    model agrees with CPython on every value these functions touch.
--  * Python exceptions are modeled with `Except String`: a raised
--    exception is `.error msg` carrying the exception class and message.
--  * `pathlib.Path` is modeled by its normalized string form (`PyPath`):
--    every `Path` object prints to a normalized string and `Path(s)` is
--    the identity on already-normalized strings, so `str` and the `Path`
--    constructor are the identity on this representation.
--  * `json.dumps`/`json.loads` are exact mutual inverses on the trees the
--    session model produces, so serialization is modeled at the JSON tree
--    level (`Json`) and the string encoding step is elided.

-- ---------------------------------------------------------------------
-- Generic helpers: exception plumbing
-- ---------------------------------------------------------------------

/-- Sequencing of fallible Python statements: an earlier raised exception
propagates, otherwise execution continues with the value. -/
def ebind {α β : Type} (x : Except String α) (f : α → Except String β) : Except String β :=
  match x with
  | .error e => .error e
  | .ok a => f a

@[simp] theorem ebind_ok {α β : Type} (a : α) (f : α → Except String β) :
    ebind (.ok a) f = f a := rfl

@[simp] theorem ebind_error {α β : Type} (e : String) (f : α → Except String β) :
    ebind (.error e) f = .error e := rfl

/-- A Python `for` loop (or list comprehension) over a list in which each
iteration may raise: the first raised exception aborts the whole loop. -/
def exceptMapList {α β : Type} (f : α → Except String β) : List α → Except String (List β)
  | [] => .ok []
  | a :: rest =>
      ebind (f a) fun b =>
      ebind (exceptMapList f rest) fun bs =>
      .ok (b :: bs)

-- ---------------------------------------------------------------------
-- Generic helpers: Python builtins used by the embedded code
-- ---------------------------------------------------------------------

/-- Python `range(start, stop, step)`, as the list of produced values.
`range` raises `ValueError` when `step == 0`; otherwise it produces
`max(0, ceil((stop - start) / step))` values `start + step * i`.
Lean integer division `/` is Euclidean division, which agrees with Python
floor division for the positive divisors used in the count formula. -/
def pyRange (start stop step : ℤ) : Except String (List ℤ) :=
  if step = 0 then .error "ValueError: range() arg 3 must not be zero"
  else
    .ok ((List.range
            (if 0 < step then ((stop - start + step - 1) / step).toNat
             else ((start - stop + (-step) - 1) / (-step)).toNat)).map
          fun i : ℕ => start + step * (i : ℤ))

/-- Round-half-to-even of a rational, the rounding used by Python
`round(x, n)` and `format(x, ".2f")` on floats. -/
def roundHalfEvenQ (q : ℚ) : ℤ :=
  if q - (⌊q⌋ : ℚ) < 1 / 2 then ⌊q⌋
  else if (1 : ℚ) / 2 < q - (⌊q⌋ : ℚ) then ⌊q⌋ + 1
  else if ⌊q⌋ % 2 = 0 then ⌊q⌋ else ⌊q⌋ + 1

/-- Two-digit zero-padded decimal of a natural number below 100. -/
def pad2 (k : ℕ) : String :=
  if k < 10 then "0" ++ toString k else toString k

/-- Python `f-string` formatting `f"{q:.2f}"` of a (float) value: the value
rounded half-to-even to two decimals, always printed with two decimals,
keeping the sign of the input (CPython prints "-0.00" for tiny negatives). -/
def pyFixed2 (q : ℚ) : String :=
  (if q < 0 then "-" else "")
    ++ toString ((roundHalfEvenQ (q * 100)).natAbs / 100)
    ++ "." ++ pad2 ((roundHalfEvenQ (q * 100)).natAbs % 100)

/-- Python `str()` of a non-negative float whose exact value is `n / 100`:
CPython repr is the shortest decimal, so trailing zeros are dropped but at
least one fractional digit is kept. -/
def hundredthsRepr (n : ℕ) : String :=
  if n % 100 = 0 then toString (n / 100) ++ ".0"
  else if n % 10 = 0 then toString (n / 100) ++ "." ++ toString (n % 100 / 10)
  else toString (n / 100) ++ "." ++ pad2 (n % 100)

/-- Python `str(round(2 ** e, 2))` for an integer exponent `e`: for
`e >= 0` the power is an `int` (and `round` returns it unchanged); for
`e < 0` it is a float `1 / 2^|e|` rounded to two decimals. -/
def pyMulcStr (e : ℤ) : String :=
  if 0 ≤ e then toString ((2 : ℤ) ^ e.toNat)
  else hundredthsRepr (roundHalfEvenQ ((1 / (2 : ℚ) ^ e.natAbs) * 100)).toNat

/-- Python `f-string` formatting `f"{e:+}"` of an integer: the decimal with
an explicit sign. -/
def pySignedStr (e : ℤ) : String :=
  if 0 ≤ e then "+" ++ toString e else toString e

/-- Python `math.ceil(math.sqrt(n))` for a natural number: the least `k`
with `n <= k * k` (exact for every argument the code passes, since
`math.sqrt` is correctly rounded). -/
def ceilSqrt (n : ℕ) : ℕ :=
  ((List.range (n + 1)).find? fun k => n ≤ k * k).getD n

-- ---------------------------------------------------------------------
-- pathlib.Path model
-- ---------------------------------------------------------------------

/-- `pathlib.Path`, modeled by its normalized string representation (see
the conventions at the top of the file). -/
structure PyPath where
  repr_str : String
deriving DecidableEq, Repr

/-- The `Path(s)` constructor on an already-normalized string. -/
def pyPathOfString (s : String) : PyPath := ⟨s⟩

/-- Python `str(path)`. -/
def pyPathStr (p : PyPath) : String := p.repr_str

@[simp] theorem pyPathOfString_pyPathStr (p : PyPath) :
    pyPathOfString (pyPathStr p) = p := rfl

/-- Python `Path.stem`: the final path component without its last suffix
(a leading dot alone does not start a suffix, as in ".bashrc"). -/
def pyStem (s : String) : String :=
  let name := (s.splitOn "/").getLastD s
  let parts := name.splitOn "."
  if parts.length ≤ 1 then name
  else if parts.length = 2 ∧ parts.headD "" = "" then name
  else String.intercalate "." parts.dropLast

-- ---------------------------------------------------------------------
-- JSON trees (the values produced by dataclass to_dict / json.loads)
-- ---------------------------------------------------------------------

/-- JSON-compatible Python values: `None`, `str`, numbers, lists and
(insertion-ordered) dicts.  Python tuples serialize as JSON arrays. -/
inductive Json where
  | null : Json
  | str : String → Json
  | num : ℚ → Json
  | arr : List Json → Json
  | obj : List (String × Json) → Json

/-- Python `d[key]` on a dict: the value at the key, or a `KeyError`. -/
def jsonGetObj : List (String × Json) → String → Except String Json
  | [], key => .error ("KeyError: " ++ key)
  | (k, v) :: rest, key => if k = key then .ok v else jsonGetObj rest key

/-- The field list of a JSON object (the embedded code only ever indexes
into dicts here). -/
def jsonFields : Json → Except String (List (String × Json))
  | .obj fields => .ok fields
  | _ => .error "TypeError: expected a dict"

/-- A JSON value expected to be a string.  Python would not check the
type, but every constructible value that reaches these readers is a
string, so a type mismatch is modeled as a `TypeError`. -/
def jsonStr : Json → Except String String
  | .str s => .ok s
  | _ => .error "TypeError: expected a str"

/-- A JSON array expected to hold only strings (same convention as
`jsonStr`). -/
def jsonStrList : List Json → Except String (List String)
  | [] => .ok []
  | .str s :: rest => ebind (jsonStrList rest) fun l => .ok (s :: l)
  | _ :: _ => .error "TypeError: expected a list of str"

-- ---------------------------------------------------------------------
-- src/libraries/lxmpicturelab/oiiotoolio.py
-- ---------------------------------------------------------------------

/-- `OIIOTOOL = Path(shutil.which("oiiotool"))`: the resolved executable
path, opaque to the core; modeled as a fixed token. -/
def OIIOTOOL : String := "oiiotool"

/-- `oiiotool_export`: the arguments required to export an image.
Python defaults: `compression = None`, `srgb_encoded = False`; both
`None` and the empty string are falsy for `compression`. -/
def oiiotool_export (target_path : PyPath) (bitdepth : String)
    (compression : Option String) (srgb_encoded : Bool) : List String :=
  ["-d", bitdepth]
    ++ (if srgb_encoded then ["--colorconvert", "linear", "sRGB"] else [])
    ++ (match compression with
        | some c => if c = "" then [] else ["--compression", c]
        | none => [])
    ++ ["-o", pyPathStr target_path]

/-- `oiiotool_ocio_display_convert`: apply an OCIO display conversion.
Python default: `look = None`; both `None` and the empty string are falsy.
The look step uses `src_colorspace` as both its `from` and its `to`. -/
def oiiotool_ocio_display_convert (config : PyPath) (src_colorspace display view : String)
    (look : Option String) : List String :=
  ["--colorconfig", pyPathStr config]
    ++ (match look with
        | some l =>
            if l = "" then []
            else ["--ociolook:from=\"" ++ src_colorspace ++ "\":to=\"" ++ src_colorspace ++ "\"", l]
        | none => [])
    ++ ["--ociodisplay:from=\"" ++ src_colorspace ++ "\"", display, view]

/-- The exception message of a Python float division by zero. -/
def zeroDivMsg : String := "ZeroDivisionError: float division by zero"

/-- The per-band `--cut` expression of `oiiotool_generate_expo_bands`,
Python source: an f-string interpolating `f"{1 / band_width:.2f}"` and
`f"{1 / band_x_offset:.2f}"` between literal braces. -/
def expoCutStr (band_width band_x_offset : ℚ) : String :=
  "\x7bTOP.width//" ++ pyFixed2 (1 / band_width)
    ++ "\x7dx\x7bTOP.height\x7d+\x7bTOP.width//" ++ pyFixed2 (1 / band_x_offset)
    ++ "\x7d+0"

/-- Evaluation of the `--cut` f-string: Python evaluates
`1 / band_width` first, then `1 / band_x_offset`, raising
`ZeroDivisionError` on a zero divisor. -/
def expoCutExpr (band_width band_x_offset : ℚ) : Except String String :=
  if band_width = 0 then .error zeroDivMsg
  else if band_x_offset = 0 then .error zeroDivMsg
  else .ok (expoCutStr band_width band_x_offset)

/-- The per-band `--text` option token of `oiiotool_generate_expo_bands`
(a literal in the source). -/
def expoTextToken : String :=
  "--text:x=\x7bTOP.width/2\x7d:y=\x7bTOP.height-25\x7d:shadow=4:size=44:color=1,1,1,1"

/-- The token list one loop iteration of `oiiotool_generate_expo_bands`
appends for the band of exposure `band_exposure` (defined when neither
divisor of the cut expression is zero). -/
def expoBandTokens (src_path : String) (band_width band_x_offset : ℚ)
    (band_extra_args : List String) (band_exposure : ℤ) : List String :=
  ["-i", src_path, "--cut", expoCutStr band_width band_x_offset,
   "--mulc", pyMulcStr band_exposure]
    ++ band_extra_args
    ++ [expoTextToken, pySignedStr band_exposure]

/-- One loop iteration of `oiiotool_generate_expo_bands`, including the
possible `ZeroDivisionError` from the cut expression. -/
def expoBandFragment (src_path : String) (band_width band_x_offset : ℚ)
    (band_extra_args : List String) (band_exposure : ℤ) : Except String (List String) :=
  ebind (expoCutExpr band_width band_x_offset) fun cut =>
  .ok (["-i", src_path, "--cut", cut, "--mulc", pyMulcStr band_exposure]
        ++ band_extra_args
        ++ [expoTextToken, pySignedStr band_exposure])

/-- `oiiotool_generate_expo_bands`: render a width section of the given
image with different exposure offsets.  Python defaults: `band_number = 7`,
`band_exposure_offset = 2`, `band_width = 0.3`, `band_x_offset = 0.0`,
`band_extra_args = None` (treated as the empty list).
`middle_index = math.ceil(band_number / 2)` is written `(band_number+1)/2`,
which is exact for the odd values that pass the parity guard. -/
def oiiotool_generate_expo_bands (src_path : String) (band_number : ℤ)
    (band_exposure_offset : ℤ) (band_width band_x_offset : ℚ)
    (band_extra_args : List String) : Except String (List String) :=
  if band_number % 2 = 0 then
    .error ("ValueError: band_number can only be an odd number; got " ++ toString band_number)
  else
    ebind (pyRange (band_exposure_offset * ((band_number + 1) / 2 - 1) * -1)
                   (band_exposure_offset * ((band_number + 1) / 2 - 1) + 1)
                   band_exposure_offset) fun bands =>
    ebind (exceptMapList
            (expoBandFragment src_path band_width band_x_offset band_extra_args)
            bands) fun fragments =>
    .ok (fragments.flatten ++ ["--mosaic", toString bands.length ++ "x1"])

/-- `oiiotool_auto_mosaic`: a mosaic of `image_number` stacked images with
a near-square guessed grid.  For `image_number = 0` the Python code
divides by `columns = 0` and raises `ZeroDivisionError`. -/
def oiiotool_auto_mosaic (image_number : ℕ) : Except String (List String) :=
  if ceilSqrt image_number = 0 then .error "ZeroDivisionError: division by zero"
  else
    .ok ["--mosaic",
         toString (ceilSqrt image_number) ++ "x"
           ++ toString ((image_number + ceilSqrt image_number - 1) / ceilSqrt image_number)]

-- ---------------------------------------------------------------------
-- src/libraries/lxmpicturelab/renderer/_config.py
-- (lxmpicturelab.renderer resolves to the renderer/ package, whose
-- _config.py defines the descriptor used by comparison.py; the legacy
-- module renderer.py repeats to_oiiotool_command verbatim.)
-- ---------------------------------------------------------------------

/-- `ACES20651_COLORSPACE`: the fixed reference colorspace token. -/
def ACES20651_COLORSPACE : String := "@ACES2065-1@"

/-- `oiiotool_AP0_to_sRGB`: the fixed 3x3 ACES2065-1 to sRGB primaries
matrix fragment.  The second token is the Python
`",".join(map(str, AP0_TO_SRGB))` of the nine hardcoded float constants,
whose `str()` reproduces the source decimals exactly. -/
def oiiotool_AP0_to_sRGB : List String :=
  ["--ccmatrix:transpose=1",
   "2.521649,-1.136889,-0.384918,-0.275214,1.369705,-0.094392,-0.015925,-0.147806,1.163806"]

/-- `OcioConfigRenderer`: a frozen dataclass describing how to evaluate an
image formation sourced from an OCIO config file.  Python field defaults:
`look = ""`, `src_colorspace = ACES20651_COLORSPACE`, `source_url = ""`,
`references = []`. -/
structure OcioConfigRenderer where
  name : String
  filename : String
  description : String
  config_path : PyPath
  srgb_lin : String
  display : String
  view : String
  look : String
  src_colorspace : String
  source_url : String
  references : List String
deriving DecidableEq, Repr

/-- `OcioConfigRenderer.to_oiiotool_command`: raises `NotImplementedError`
unless the source colorspace is the fixed reference colorspace; otherwise
the matrix fragment followed by the display-conversion fragment. -/
def OcioConfigRenderer.to_oiiotool_command (r : OcioConfigRenderer) : Except String (List String) :=
  if r.src_colorspace = ACES20651_COLORSPACE then
    .ok (oiiotool_AP0_to_sRGB
          ++ oiiotool_ocio_display_convert r.config_path r.srgb_lin r.display r.view (some r.look))
  else
    .error "NotImplementedError: Only ACES2065-1 encoded data is supported at this time."

/-- `OcioConfigRenderer.to_dict`: `dataclasses.asdict` in field order, with
`config_path` replaced by its string form. -/
def OcioConfigRenderer.to_dict (r : OcioConfigRenderer) : Json :=
  .obj [("name", .str r.name),
        ("filename", .str r.filename),
        ("description", .str r.description),
        ("config_path", .str (pyPathStr r.config_path)),
        ("srgb_lin", .str r.srgb_lin),
        ("display", .str r.display),
        ("view", .str r.view),
        ("look", .str r.look),
        ("src_colorspace", .str r.src_colorspace),
        ("source_url", .str r.source_url),
        ("references", .arr (r.references.map Json.str))]

/-- `OcioConfigRenderer.from_dict`: keyword-constructs the descriptor from
the dict entries, parsing `config_path` back into a path. -/
def OcioConfigRenderer.from_dict (j : Json) : Except String OcioConfigRenderer :=
  ebind (jsonFields j) fun o =>
  ebind (ebind (jsonGetObj o "name") jsonStr) fun name =>
  ebind (ebind (jsonGetObj o "filename") jsonStr) fun filename =>
  ebind (ebind (jsonGetObj o "description") jsonStr) fun description =>
  ebind (ebind (jsonGetObj o "config_path") jsonStr) fun config_path =>
  ebind (ebind (jsonGetObj o "srgb_lin") jsonStr) fun srgb_lin =>
  ebind (ebind (jsonGetObj o "display") jsonStr) fun display =>
  ebind (ebind (jsonGetObj o "view") jsonStr) fun view =>
  ebind (ebind (jsonGetObj o "look") jsonStr) fun look =>
  ebind (ebind (jsonGetObj o "src_colorspace") jsonStr) fun src_colorspace =>
  ebind (ebind (jsonGetObj o "source_url") jsonStr) fun source_url =>
  ebind (ebind (jsonGetObj o "references")
          (fun v => match v with
                    | .arr items => jsonStrList items
                    | _ => .error "TypeError: references is not a list")) fun references =>
  .ok { name := name, filename := filename, description := description,
        config_path := pyPathOfString config_path, srgb_lin := srgb_lin,
        display := display, view := view, look := look,
        src_colorspace := src_colorspace, source_url := source_url,
        references := references }

-- ---------------------------------------------------------------------
-- src/libraries/lxmpicturelab/renderer/_builders.py
-- ---------------------------------------------------------------------

/-- The identity of one renderer builder class: its registry identifier
and its upstream resource URL (builder behavior is out of scope). -/
structure RendererBuilder where
  identifier : String
  source_url : String
deriving DecidableEq, Repr

/-- `RENDERER_BUILDERS`: the registered builder classes, in source order,
each with its class-level `identifier` and `source_url`. -/
def RENDERER_BUILDERS : List RendererBuilder :=
  [⟨"AgX", "https://github.com/sobotka/AgX/archive/1ba3230e6f2c825003d9e139750edd233b6a906e.zip"⟩,
   ⟨"AgX.blender", "https://projects.blender.org/blender/blender/archive/v4.2.7.zip"⟩,
   ⟨"AgXc", "https://github.com/MrLixm/AgXc/archive/3e78f1541b06191ae3a8e2efce1b74c2a8b8d23f.zip"⟩,
   ⟨"TCAMv3", "https://www.filmlight.ltd.uk/resources/download.php"⟩,
   ⟨"ARRIreveal", "https://www.arri.com/resource/blob/280728/7933fd1ce4de9165b906936661ab54eb/arri-logc4-lut-package-data.zip"⟩,
   ⟨"ACESv1.3-gm", "https://github.com/AcademySoftwareFoundation/OpenColorIO-Config-ACES/releases/download/v2.1.0-v2.2.0/studio-config-v2.1.0_aces-v1.3_ocio-v2.1.ocio"⟩,
   ⟨"ACESv2.0-gm", "https://github.com/AcademySoftwareFoundation/OpenColorIO-Config-ACES/releases/download/v3.0.0/studio-config-all-views-v3.0.0_aces-v2.0_ocio-v2.4.ocio"⟩,
   ⟨"ACESv2.0", "https://github.com/AcademySoftwareFoundation/OpenColorIO-Config-ACES/releases/download/v3.0.0/studio-config-all-views-v3.0.0_aces-v2.0_ocio-v2.4.ocio"⟩,
   ⟨"native", "https://github.com/AcademySoftwareFoundation/OpenColorIO-Config-ACES/releases/download/v3.0.0/studio-config-all-views-v3.0.0_aces-v2.0_ocio-v2.4.ocio"⟩,
   ⟨"OpenDRT", "https://github.com/chrisbrejon/OpenDRT-OCIO-Config/archive/58a630cce6f4167c52928f6ba28ab1de083fe6cc.zip"⟩,
   ⟨"2499DRT", "https://github.com/Joegenco/PixelManager/archive/c8716a42c7e03c6573915ad24f19eccfc39f687c.zip"⟩,
   ⟨"Kodak2383", "https://www.dropbox.com/s/qn62wg07f21jydp/LMT%20Kodak%202383%20Print%20Emulation.xml?dl=0"⟩]

-- ---------------------------------------------------------------------
-- src/libraries/lxmpicturelab/comparison.py
-- ---------------------------------------------------------------------

/-- The generator strategies (`BaseGenerator` subclasses).  Per-variant
parameters: `GeneratorExposureBands.band_offset` (a float, default `0.0`)
and `GeneratorFull.max_height` (an int, no default).
`GeneratorCombined` has no fields. -/
inductive BaseGenerator where
  | GeneratorExposureBands (band_offset : ℚ)
  | GeneratorFull (max_height : ℤ)
  | GeneratorCombined
deriving DecidableEq, Repr

/-- The class-level `shortname` of each generator strategy. -/
def BaseGenerator.shortname : BaseGenerator → String
  | .GeneratorExposureBands _ => "exposures"
  | .GeneratorFull _ => "full"
  | .GeneratorCombined => "__combined__"

/-- The class-level `description` of each generator strategy. -/
def BaseGenerator.description : BaseGenerator → String
  | .GeneratorExposureBands _ => "generate bands of gradually increasing exposure"
  | .GeneratorFull _ => "render the whole area of the image and resize it"
  | .GeneratorCombined => ""

/-- The identity of one generator class, as registered in `GENERATORS`. -/
structure GeneratorClass where
  shortname : String
  description : String
deriving DecidableEq, Repr

/-- `GENERATORS`: the registered generator classes, in source order. -/
def GENERATORS : List GeneratorClass :=
  [⟨"exposures", "generate bands of gradually increasing exposure"⟩,
   ⟨"full", "render the whole area of the image and resize it"⟩,
   ⟨"__combined__", ""⟩]

/-- `BaseGenerator.to_dict`: `dataclasses.asdict` of the instance fields. -/
def BaseGenerator.to_dict : BaseGenerator → Json
  | .GeneratorExposureBands band_offset => .obj [("band_offset", .num band_offset)]
  | .GeneratorFull max_height => .obj [("max_height", .num (max_height : ℚ))]
  | .GeneratorCombined => .obj []

/-- `GeneratorExposureBands.from_dict`, that is `cls(**as_dict)`: a
missing `band_offset` falls back to its dataclass default `0.0`, any
unexpected key is a `TypeError`. -/
def GeneratorExposureBands.from_dict : Json → Except String BaseGenerator
  | .obj [] => .ok (.GeneratorExposureBands 0)
  | .obj [("band_offset", .num band_offset)] => .ok (.GeneratorExposureBands band_offset)
  | _ => .error "TypeError: unexpected arguments for GeneratorExposureBands"

/-- `GeneratorFull.from_dict`, that is `cls(**as_dict)`: `max_height` is
required (no dataclass default) and must be an int; any unexpected key is
a `TypeError`. -/
def GeneratorFull.from_dict : Json → Except String BaseGenerator
  | .obj [("max_height", .num q)] =>
      if q.den = 1 then .ok (.GeneratorFull q.num)
      else .error "TypeError: max_height is not an int"
  | _ => .error "TypeError: unexpected arguments for GeneratorFull"

/-- `GeneratorCombined.from_dict`, that is `cls(**as_dict)`: the dataclass
has no fields, so any key is a `TypeError`. -/
def GeneratorCombined.from_dict : Json → Except String BaseGenerator
  | .obj [] => .ok .GeneratorCombined
  | _ => .error "TypeError: unexpected arguments for GeneratorCombined"

/-- The composite of `_GENERATORS_BY_SHORTNAME[shortname]` (a `KeyError`
on an unknown shortname) and the selected class's `from_dict`. -/
def generatorFromDict (shortname : String) (params : Json) : Except String BaseGenerator :=
  if shortname = "exposures" then GeneratorExposureBands.from_dict params
  else if shortname = "full" then GeneratorFull.from_dict params
  else if shortname = "__combined__" then GeneratorCombined.from_dict params
  else .error ("KeyError: " ++ shortname)

/-- `ComparisonRender`: one generator x one renderer x source paths ->
one destination path.  `renderer` is `None` for the combined generator. -/
structure ComparisonRender where
  generator : BaseGenerator
  renderer : Option OcioConfigRenderer
  src_paths : List PyPath
  dst_path : PyPath
deriving DecidableEq, Repr

/-- `ComparisonRender.to_dict`: serializes paths as strings, the renderer
through its own `to_dict` (`self.renderer.to_dict()` is called without a
`None` check, so a null renderer raises `AttributeError`), and the
generator as the `(shortname, params)` tuple. -/
def ComparisonRender.to_dict (r : ComparisonRender) : Except String Json :=
  ebind (match r.renderer with
         | none => (.error "AttributeError: NoneType object has no attribute to_dict" :
                      Except String Json)
         | some rd => .ok rd.to_dict) fun rendererDict =>
  .ok (.obj [("dst_path", .str (pyPathStr r.dst_path)),
             ("src_paths", .arr (r.src_paths.map fun p => Json.str (pyPathStr p))),
             ("renderer", rendererDict),
             ("generator", .arr [.str r.generator.shortname, r.generator.to_dict])])

/-- `ComparisonRender.from_dict`: generator registry lookup and
reconstruction, renderer reconstruction (always through
`OcioConfigRenderer.from_dict`, never `None`), then path parsing; the
reads happen in the order of the Python statements. -/
def ComparisonRender.from_dict (j : Json) : Except String ComparisonRender :=
  ebind (jsonFields j) fun o =>
  ebind (jsonGetObj o "generator") fun genEntry =>
  ebind (match genEntry with
         | .arr (Json.str sn :: params :: _) => .ok (sn, params)
         | _ => (.error "TypeError: generator entry is not a pair" :
                   Except String (String × Json))) fun snParams =>
  ebind (generatorFromDict snParams.1 snParams.2) fun generator =>
  ebind (jsonGetObj o "renderer") fun rendererJson =>
  ebind (OcioConfigRenderer.from_dict rendererJson) fun renderer =>
  ebind (jsonGetObj o "src_paths") fun srcPathsJson =>
  ebind (match srcPathsJson with
         | .arr items => jsonStrList items
         | _ => (.error "TypeError: src_paths is not a list" :
                   Except String (List String))) fun src_path_strs =>
  ebind (ebind (jsonGetObj o "dst_path") jsonStr) fun dst =>
  .ok { generator := generator, renderer := some renderer,
        src_paths := src_path_strs.map pyPathOfString,
        dst_path := pyPathOfString dst }

/-- Modelled from the spec: `ImageAsset` (the asset-repository collaborator,
`lxmpicturelab/asset.py`, is not under src/).  The session model only uses
its path-taking constructor and its `json_path` field, per spec section 6
and the usage in comparison.py. -/
structure ImageAsset where
  json_path : PyPath
deriving DecidableEq, Repr

/-- `ComparisonSession`: one asset and its ordered list of renders
(default: the empty list). -/
structure ComparisonSession where
  asset : ImageAsset
  renders : List ComparisonRender
deriving DecidableEq, Repr

/-- `ComparisonSession.add_render`: `self.renders.append(render)`. -/
def ComparisonSession.add_render (s : ComparisonSession) (render : ComparisonRender) :
    ComparisonSession :=
  { s with renders := s.renders ++ [render] }

/-- `ComparisonSession.to_dict`: the asset path string and the renders, in
order, each through `ComparisonRender.to_dict`. -/
def ComparisonSession.to_dict (s : ComparisonSession) : Except String Json :=
  ebind (exceptMapList ComparisonRender.to_dict s.renders) fun renderDicts =>
  .ok (.obj [("asset", .str (pyPathStr s.asset.json_path)),
             ("renders", .arr renderDicts)])

/-- `ComparisonSession.from_dict`: rebuilds the asset from its path and
each render through `ComparisonRender.from_dict`, in order. -/
def ComparisonSession.from_dict (j : Json) : Except String ComparisonSession :=
  ebind (jsonFields j) fun o =>
  ebind (ebind (jsonGetObj o "asset") jsonStr) fun assetStr =>
  ebind (jsonGetObj o "renders") fun rendersJson =>
  ebind (match rendersJson with
         | .arr items => exceptMapList ComparisonRender.from_dict items
         | _ => (.error "TypeError: renders is not a list" :
                   Except String (List ComparisonRender))) fun renders =>
  .ok { asset := { json_path := pyPathOfString assetStr }, renders := renders }

/-- `ComparisonSession.to_json`: `json.dumps(self.to_dict())`, modeled at
the JSON tree level (see the conventions at the top of the file). -/
def ComparisonSession.to_json (s : ComparisonSession) : Except String Json :=
  s.to_dict

/-- `ComparisonSession.from_json`: `from_dict(json.loads(json_str))`,
modeled at the JSON tree level. -/
def ComparisonSession.from_json (j : Json) : Except String ComparisonSession :=
  ComparisonSession.from_dict j

-- ---------------------------------------------------------------------
-- Generator run methods (the commands they would hand to subprocess.run)
-- ---------------------------------------------------------------------

/-- `GeneratorExposureBands.run` and `_run`, observed as the oiiotool
command they build (the `subprocess.run` call itself is the external
boundary).  `src_paths[0]` on an empty list raises `IndexError`;
`renderer.look` on `None` raises `AttributeError`; the hardcoded call
passes `band_number=7`, `band_exposure_offset=2`, `band_width=0.2` and
`band_x_offset=self.band_offset`. -/
def GeneratorExposureBands.run (band_offset : ℚ) (src_paths : List PyPath)
    (dst_path : PyPath) (renderer : Option OcioConfigRenderer) :
    Except String (List String) :=
  ebind (match src_paths with
         | [] => (.error "IndexError: list index out of range" : Except String PyPath)
         | p :: _ => .ok p) fun src_path =>
  ebind (match renderer with
         | none => (.error "AttributeError: NoneType object has no attribute look" :
                      Except String OcioConfigRenderer)
         | some r => .ok r) fun r =>
  ebind r.to_oiiotool_command fun ocio_command =>
  ebind (oiiotool_generate_expo_bands (pyPathStr src_path) 7 2 (1/5) band_offset
          ocio_command) fun expo =>
  .ok ([OIIOTOOL] ++ expo
        ++ ["--resize:filter=box", "0x864",
            "--cut", "0,0,\x7bTOP.width\x7d,\x7bTOP.height+100\x7d",
            "--text:x=40:y=\x7bTOP.height-45\x7d:shadow=0:size=34:color=1,1,1,1:yalign=center",
            pyStem (pyPathStr src_path) ++ " - " ++ r.name,
            "--text:x=\x7bTOP.width-40\x7d:y=\x7bTOP.height-45\x7d:shadow=0:size=24:color=1,1,1,1:yalign=center:xalign=right",
            "(display=\x27" ++ r.display ++ "\x27, view=\x27" ++ r.view ++ "\x27"
              ++ (if r.look = "" then "" else ", look=\x27" ++ r.look ++ "\x27") ++ ")"]
        ++ oiiotool_export dst_path "uint8" (some "jpeg:98") false)

/-- `GeneratorFull.run` and `_run`, observed as the oiiotool command they
build.  Same `IndexError` and `AttributeError` behavior as the
exposure-bands generator. -/
def GeneratorFull.run (max_height : ℤ) (src_paths : List PyPath)
    (dst_path : PyPath) (renderer : Option OcioConfigRenderer) :
    Except String (List String) :=
  ebind (match src_paths with
         | [] => (.error "IndexError: list index out of range" : Except String PyPath)
         | p :: _ => .ok p) fun src_path =>
  ebind (match renderer with
         | none => (.error "AttributeError: NoneType object has no attribute look" :
                      Except String OcioConfigRenderer)
         | some r => .ok r) fun r =>
  ebind r.to_oiiotool_command fun ocio_command =>
  .ok ([OIIOTOOL, "-i", pyPathStr src_path]
        ++ ocio_command
        ++ ["--ch", "R,G,B"]
        ++ ["--resize:filter=box", "0x" ++ toString max_height,
            "--cut", "0,0,\x7bTOP.width\x7d,\x7bTOP.height+100\x7d",
            "--text:x=40:y=\x7bTOP.height-47\x7d:shadow=0:size=34:color=1,1,1,1:yalign=bottom",
            r.name,
            "--text:x=40:y=\x7bTOP.height-42\x7d:shadow=0:size=24:color=1,1,1,1:yalign=top",
            "(display=\x27" ++ r.display ++ "\x27, view=\x27" ++ r.view ++ "\x27"
              ++ (if r.look = "" then "" else ", look=\x27" ++ r.look ++ "\x27") ++ ")",
            "--text:x=\x7bTOP.width-40\x7d:y=\x7bTOP.height-45\x7d:shadow=0:size=34:color=1,1,1,1:yalign=center:xalign=right",
            pyStem (pyPathStr src_path)]
        ++ oiiotool_export dst_path "uint8" (some "jpeg:98") false)

-- ---------------------------------------------------------------------
-- Helper lemmas
-- ---------------------------------------------------------------------

theorem jsonStrList_map (l : List String) :
    jsonStrList (l.map Json.str) = .ok l := by
  induction l with
  | nil => rfl
  | cons s rest ih => simp [jsonStrList, ih]

theorem generatorFromDict_to_dict (g : BaseGenerator) :
    generatorFromDict g.shortname g.to_dict = .ok g := by
  cases g with
  | GeneratorExposureBands band_offset => rfl
  | GeneratorFull max_height =>
      simp [generatorFromDict, BaseGenerator.shortname, BaseGenerator.to_dict,
            GeneratorFull.from_dict, Rat.den_intCast, Rat.num_intCast]
  | GeneratorCombined => rfl

theorem rendererFromDict_to_dict (rd : OcioConfigRenderer) :
    OcioConfigRenderer.from_dict rd.to_dict = .ok rd := by
  simp [OcioConfigRenderer.from_dict, OcioConfigRenderer.to_dict, jsonFields,
        jsonGetObj, jsonStr, jsonStrList_map]

/-- The JSON object `ComparisonRender.to_dict` produces for a render whose
renderer is non-null (a proof-side abbreviation, not source code). -/
def renderJson (g : BaseGenerator) (rd : OcioConfigRenderer)
    (srcs : List PyPath) (dst : PyPath) : Json :=
  .obj [("dst_path", .str (pyPathStr dst)),
        ("src_paths", .arr (srcs.map fun p => Json.str (pyPathStr p))),
        ("renderer", rd.to_dict),
        ("generator", .arr [.str g.shortname, g.to_dict])]

theorem renderToDict_some (g : BaseGenerator) (rd : OcioConfigRenderer)
    (srcs : List PyPath) (dst : PyPath) :
    ComparisonRender.to_dict ⟨g, some rd, srcs, dst⟩ = .ok (renderJson g rd srcs dst) := rfl

theorem renderFromDict_renderJson (g : BaseGenerator) (rd : OcioConfigRenderer)
    (srcs : List PyPath) (dst : PyPath) :
    ComparisonRender.from_dict (renderJson g rd srcs dst) = .ok ⟨g, some rd, srcs, dst⟩ := by
  have hstrs : jsonStrList (srcs.map fun p => Json.str (pyPathStr p)) = .ok (srcs.map pyPathStr) := by
    rw [show (srcs.map fun p => Json.str (pyPathStr p)) = (srcs.map pyPathStr).map Json.str by
          simp [List.map_map]]
    exact jsonStrList_map _
  simp [ComparisonRender.from_dict, renderJson, jsonFields, jsonGetObj,
        generatorFromDict_to_dict, rendererFromDict_to_dict, jsonStr,
        hstrs, List.map_map, Function.comp_def]

theorem pyRange_expo (N step : ℤ) (hN : N % 2 = 1) (hstep : 1 ≤ step) :
    pyRange (step * ((N + 1) / 2 - 1) * -1) (step * ((N + 1) / 2 - 1) + 1) step
      = .ok ((List.range N.toNat).map fun i : ℕ => step * ((i : ℤ) - N / 2)) := by
  obtain ⟨k, hk⟩ : ∃ k, N = 2 * k + 1 := ⟨N / 2, by omega⟩
  have hk2 : N / 2 = k := by omega
  have h0 : ¬ step = 0 := by omega
  have hpos : 0 < step := by omega
  have hmid : (N + 1) / 2 - 1 = k := by omega
  unfold pyRange
  rw [if_neg h0, if_pos hpos, hmid, hk2]
  have harg : step * k + 1 - step * k * -1 + step - 1 = step * N := by
    rw [hk]; ring
  rw [harg, Int.mul_ediv_cancel_left _ h0]
  refine congrArg _ ?_
  apply List.map_congr_left
  intro i _
  ring

theorem expoBands_closed_form (src : String) (N step : ℤ) (w x : ℚ) (extra : List String)
    (hN : N % 2 = 1) (hstep : 1 ≤ step) (hw : w ≠ 0) (hx : x ≠ 0) :
    oiiotool_generate_expo_bands src N step w x extra
      = .ok ((((List.range N.toNat).map fun i : ℕ => step * ((i : ℤ) - N / 2)).map
                (expoBandTokens src w x extra)).flatten
             ++ ["--mosaic", toString N.toNat ++ "x1"]) := by
  have hne : ¬ N % 2 = 0 := by omega
  have hfrag : ∀ e : ℤ,
      expoBandFragment src w x extra e = .ok (expoBandTokens src w x extra e) := by
    intro e
    simp [expoBandFragment, expoCutExpr, expoBandTokens, hw, hx]
  have hmap : ∀ l : List ℤ,
      exceptMapList (expoBandFragment src w x extra) l
        = .ok (l.map (expoBandTokens src w x extra)) := by
    intro l
    induction l with
    | nil => rfl
    | cons a rest ih => simp [exceptMapList, hfrag, ih]
  unfold oiiotool_generate_expo_bands
  rw [if_neg hne, pyRange_expo N step hN hstep]
  rw [ebind_ok, hmap, ebind_ok]
  simp only [List.length_map, List.length_range]

-- ---------------------------------------------------------------------
-- Test fixtures and concrete evaluations
-- ---------------------------------------------------------------------

/-- A renderer descriptor with the field values the AgX builder produces
(a test fixture; `src_colorspace` is the dataclass default). -/
def sampleRenderer : OcioConfigRenderer :=
  { name := "AgX", filename := "AgX",
    description := "The original AgX algorithm by Troy Sobotka.",
    config_path := ⟨"AgX/config.ocio"⟩, srgb_lin := "Linear BT.709",
    display := "sRGB", view := "Appearance Punchy", look := "",
    src_colorspace := ACES20651_COLORSPACE, source_url := "", references := [] }

/-- The same fixture with a non-reference source colorspace. -/
def sampleRendererSRGB : OcioConfigRenderer :=
  { sampleRenderer with src_colorspace := "sRGB" }

theorem roundHalfEvenQ_two_pow_neg_six :
    roundHalfEvenQ ((1 / (2 : ℚ) ^ (6 : ℕ)) * 100) = 2 := by
  have hfloor : ⌊(1 / (2 : ℚ) ^ (6 : ℕ)) * 100⌋ = 1 := by norm_num
  unfold roundHalfEvenQ
  rw [hfloor, if_neg (by norm_num), if_pos (by norm_num)]
  norm_num

theorem pyMulcStr_neg_six : pyMulcStr (-6) = "0.02" := by
  have h6 : ((-6 : ℤ)).natAbs = 6 := rfl
  rw [pyMulcStr, if_neg (by decide), h6, roundHalfEvenQ_two_pow_neg_six]
  rfl

-- ---------------------------------------------------------------------
-- C3: odd-band invariant of the exposure-band fragment
-- ---------------------------------------------------------------------

/-- C3: exposure-band fragment construction fails for every even band
count; for every odd band count N >= 1 (given a positive exposure step
and nonzero width and offset fractions, which the crop token divides by)
it produces exactly N band sub-commands, one per offset, followed by
exactly one final mosaic directive sized Nx1. -/
theorem expo_bands_odd_invariant :
    (∀ (src : String) (N step : ℤ) (w x : ℚ) (extra : List String),
        N % 2 = 0 →
        oiiotool_generate_expo_bands src N step w x extra
          = .error ("ValueError: band_number can only be an odd number; got " ++ toString N))
    ∧ (∀ (src : String) (N step : ℤ) (w x : ℚ) (extra : List String),
        N % 2 = 1 → 1 ≤ N → 1 ≤ step → w ≠ 0 → x ≠ 0 →
        ∃ offsets : List ℤ,
          oiiotool_generate_expo_bands src N step w x extra
            = .ok ((offsets.map (expoBandTokens src w x extra)).flatten
                   ++ ["--mosaic", toString N.toNat ++ "x1"])
          ∧ offsets.length = N.toNat ∧ (N.toNat : ℤ) = N) := by
  constructor
  · intro src N step w x extra h
    unfold oiiotool_generate_expo_bands
    rw [if_pos h]
  · intro src N step w x extra hN hN1 hstep hw hx
    refine ⟨(List.range N.toNat).map fun i : ℕ => step * ((i : ℤ) - N / 2),
            expoBands_closed_form src N step w x extra hN hstep hw hx, ?_, by omega⟩
    simp

/-- Checks the C3 theorem at band counts 4 (even, rejected) and 7. -/
theorem expo_bands_odd_invariant_witness :
    oiiotool_generate_expo_bands "img.exr" 4 2 (1/5) (9/20) []
        = .error "ValueError: band_number can only be an odd number; got 4"
    ∧ ∃ offsets : List ℤ,
        oiiotool_generate_expo_bands "img.exr" 7 2 (1/5) (9/20) []
          = .ok ((offsets.map (expoBandTokens "img.exr" (1/5) (9/20) [])).flatten
                 ++ ["--mosaic", toString (7 : ℤ).toNat ++ "x1"])
          ∧ offsets.length = (7 : ℤ).toNat ∧ ((7 : ℤ).toNat : ℤ) = 7 := by
  constructor
  · rw [expo_bands_odd_invariant.1 "img.exr" 4 2 (1/5) (9/20) [] (by decide)]
    rfl
  · exact expo_bands_odd_invariant.2 "img.exr" 7 2 (1/5) (9/20) []
      (by decide) (by decide) (by decide) (by norm_num) (by norm_num)

-- ---------------------------------------------------------------------
-- C5: symmetric exposure offsets
-- ---------------------------------------------------------------------

/-- C5 (amended): for odd band count N and positive exposure step, the
bands are generated in offset order step * (i - floor(N/2)) for i in
0..N-1 (symmetric, centered on zero); in particular for N=7, step=2 the
offsets are exactly [-6,-4,-2,0,2,4,6] in that order.  Each band
sub-command (`expoBandTokens`) multiplies pixel values by 2^offset
rounded to two decimal places (its `--mulc` argument, `pyMulcStr`) and is
labelled with the signed offset (`pySignedStr`). -/
theorem expo_bands_symmetric_offsets :
    (∀ (src : String) (N step : ℤ) (w x : ℚ) (extra : List String),
        N % 2 = 1 → 1 ≤ step → w ≠ 0 → x ≠ 0 →
        oiiotool_generate_expo_bands src N step w x extra
          = .ok ((((List.range N.toNat).map fun i : ℕ => step * ((i : ℤ) - N / 2)).map
                    (expoBandTokens src w x extra)).flatten
                 ++ ["--mosaic", toString N.toNat ++ "x1"]))
    ∧ ((List.range (7 : ℤ).toNat).map fun i : ℕ => (2 : ℤ) * ((i : ℤ) - (7 : ℤ) / 2))
        = [-6, -4, -2, 0, 2, 4, 6] := by
  constructor
  · intro src N step w x extra hN hstep hw hx
    exact expoBands_closed_form src N step w x extra hN hstep hw hx
  · decide

/-- Checks the C5 theorem at N=7, step=2: the command is the seven band
fragments at offsets -6,-4,-2,0,2,4,6 in order, then the 7x1 mosaic. -/
theorem expo_bands_symmetric_offsets_witness :
    oiiotool_generate_expo_bands "img.exr" 7 2 (1/5) (9/20) []
      = .ok ((([-6, -4, -2, 0, 2, 4, 6] : List ℤ).map
                (expoBandTokens "img.exr" (1/5) (9/20) [])).flatten
             ++ ["--mosaic", "7x1"]) := by
  have h := expo_bands_symmetric_offsets.1 "img.exr" 7 2 (1/5) (9/20) []
      (by decide) (by decide) (by norm_num) (by norm_num)
  rw [h, show ((List.range (7 : ℤ).toNat).map fun i : ℕ => (2 : ℤ) * ((i : ℤ) - (7 : ℤ) / 2))
        = ([-6, -4, -2, 0, 2, 4, 6] : List ℤ) from by decide]
  rfl

/-- C5 counterexample: the first band generated at N=7, step=2 does not
multiply pixel values by exactly 2^offset: its `--mulc` argument (command
token index 5) is "0.02", the two-decimal rounding of 2^(-6), and that
rounded value differs from the exact 2^(-6) = 1/64. -/
theorem expo_bands_mulc_rounding_counterexample :
    Except.map (fun cmd : List String => cmd[5]?)
        (oiiotool_generate_expo_bands "img.exr" 7 2 (1/5) (9/20) [])
      = .ok (some "0.02")
    ∧ ((roundHalfEvenQ ((1 / (2 : ℚ) ^ (6 : ℕ)) * 100) : ℚ) / 100) ≠ 1 / (2 : ℚ) ^ (6 : ℕ) := by
  constructor
  · rw [expoBands_closed_form "img.exr" 7 2 (1/5) (9/20) []
          (by decide) (by decide) (by norm_num) (by norm_num),
        show ((List.range (7 : ℤ).toNat).map fun i : ℕ => (2 : ℤ) * ((i : ℤ) - (7 : ℤ) / 2))
          = ([-6, -4, -2, 0, 2, 4, 6] : List ℤ) from by decide]
    simp [Except.map, expoBandTokens, pyMulcStr_neg_six]
  · rw [roundHalfEvenQ_two_pow_neg_six]
    norm_num

-- ---------------------------------------------------------------------
-- C10: division by zero at the default horizontal offset
-- ---------------------------------------------------------------------

/-- C10 (amended): for every odd band count N >= 1, calling the
exposure-band builder with band_x_offset = 0.0 (its declared default, and
the value the ExposureBands generator default band_offset = 0.0 passes
through, with the other arguments at their defaults) raises
ZeroDivisionError, because each band crop token computes
1/band_x_offset.  Construction succeeds for every nonzero offset fraction
(negative ones included), so it is total exactly on nonzero offsets, not
only on strictly positive ones. -/
theorem expo_bands_zero_x_offset :
    (∀ (src : String) (N : ℤ) (extra : List String),
        N % 2 = 1 → 1 ≤ N →
        oiiotool_generate_expo_bands src N 2 (3/10) 0 extra = .error zeroDivMsg)
    ∧ (∀ (src : String) (N step : ℤ) (w x : ℚ) (extra : List String),
        N % 2 = 1 → 1 ≤ step → w ≠ 0 → x ≠ 0 →
        (oiiotool_generate_expo_bands src N step w x extra).isOk = true) := by
  constructor
  · intro src N extra hN hN1
    have hne : ¬ N % 2 = 0 := by omega
    have hfrag : ∀ e : ℤ,
        expoBandFragment src (3/10) 0 extra e = .error zeroDivMsg := by
      intro e
      unfold expoBandFragment expoCutExpr
      rw [if_neg (by norm_num), if_pos rfl]
      rfl
    unfold oiiotool_generate_expo_bands
    rw [if_neg hne, pyRange_expo N 2 hN (by norm_num), ebind_ok]
    have hsucc : N.toNat = (N.toNat - 1) + 1 := by omega
    rw [hsucc, List.range_succ_eq_map, List.map_cons]
    simp only [exceptMapList, hfrag, ebind_error]
  · intro src N step w x extra hN hstep hw hx
    rw [expoBands_closed_form src N step w x extra hN hstep hw hx]
    rfl

/-- Checks the C10 theorem at N=7: the default zero offset raises, a
nonzero offset succeeds. -/
theorem expo_bands_zero_x_offset_witness :
    oiiotool_generate_expo_bands "img.exr" 7 2 (3/10) 0 [] = .error zeroDivMsg
    ∧ (oiiotool_generate_expo_bands "img.exr" 7 2 (3/10) (1/2) []).isOk = true :=
  ⟨expo_bands_zero_x_offset.1 "img.exr" 7 [] (by decide) (by decide),
   expo_bands_zero_x_offset.2 "img.exr" 7 2 (3/10) (1/2) []
     (by decide) (by decide) (by norm_num) (by norm_num)⟩

/-- C10 counterexample: the fragment construction also succeeds at the
strictly negative offset fraction -1/2, so it is not total only for
offsets strictly greater than zero. -/
theorem expo_bands_negative_x_offset_counterexample :
    ¬ (0 < (-1/2 : ℚ))
    ∧ (oiiotool_generate_expo_bands "img.exr" 7 2 (3/10) (-1/2) []).isOk = true := by
  constructor
  · norm_num
  · rw [expoBands_closed_form "img.exr" 7 2 (3/10) (-1/2) []
          (by decide) (by decide) (by norm_num) (by norm_num)]
    rfl

-- ---------------------------------------------------------------------
-- C6: auto-mosaic grid
-- ---------------------------------------------------------------------

/-- C6: the auto-mosaic fragment emits one mosaic directive with
columns = ceil(sqrt(n)) and rows = ceil(n/columns); for image counts
1, 2, 3, 4, 5, 9 and 10 the (columns, rows) pairs are exactly (1,1),
(2,1), (2,2), (2,2), (3,2), (3,3) and (4,3). -/
theorem auto_mosaic_grids :
    oiiotool_auto_mosaic 1 = .ok ["--mosaic", "1x1"]
    ∧ oiiotool_auto_mosaic 2 = .ok ["--mosaic", "2x1"]
    ∧ oiiotool_auto_mosaic 3 = .ok ["--mosaic", "2x2"]
    ∧ oiiotool_auto_mosaic 4 = .ok ["--mosaic", "2x2"]
    ∧ oiiotool_auto_mosaic 5 = .ok ["--mosaic", "3x2"]
    ∧ oiiotool_auto_mosaic 9 = .ok ["--mosaic", "3x3"]
    ∧ oiiotool_auto_mosaic 10 = .ok ["--mosaic", "4x3"] :=
  ⟨rfl, rfl, rfl, rfl, rfl, rfl, rfl⟩

-- ---------------------------------------------------------------------
-- C7: look policy of the display-conversion fragment
-- ---------------------------------------------------------------------

/-- C7: whenever a non-empty look is given, the emitted look tokens use
the same colorspace name as both the from and the to of the look step,
and they appear after the configuration-selection tokens and before the
display/view tokens; an empty or null look emits no look tokens. -/
theorem display_convert_look_policy :
    ∀ (config : PyPath) (cs display view : String) (look : Option String) (l : String),
      ((look = some l ∧ l ≠ "") →
        oiiotool_ocio_display_convert config cs display view look
          = ["--colorconfig", pyPathStr config,
             "--ociolook:from=\"" ++ cs ++ "\":to=\"" ++ cs ++ "\"", l,
             "--ociodisplay:from=\"" ++ cs ++ "\"", display, view])
      ∧ ((look = none ∨ look = some "") →
        oiiotool_ocio_display_convert config cs display view look
          = ["--colorconfig", pyPathStr config,
             "--ociodisplay:from=\"" ++ cs ++ "\"", display, view]) := by
  intro config cs display view look l
  constructor
  · rintro ⟨rfl, hl⟩
    simp [oiiotool_ocio_display_convert, hl]
  · rintro (rfl | rfl) <;> simp [oiiotool_ocio_display_convert]

/-- Checks the C7 theorem on a concrete look and on the no-look cases. -/
theorem display_convert_look_policy_witness :
    oiiotool_ocio_display_convert ⟨"config.ocio"⟩ "lin" "sRGB" "AgX" (some "Punchy")
        = ["--colorconfig", "config.ocio",
           "--ociolook:from=\"lin\":to=\"lin\"", "Punchy",
           "--ociodisplay:from=\"lin\"", "sRGB", "AgX"]
    ∧ oiiotool_ocio_display_convert ⟨"config.ocio"⟩ "lin" "sRGB" "AgX" none
        = ["--colorconfig", "config.ocio",
           "--ociodisplay:from=\"lin\"", "sRGB", "AgX"] := by
  constructor
  · rw [(display_convert_look_policy ⟨"config.ocio"⟩ "lin" "sRGB" "AgX"
          (some "Punchy") "Punchy").1 ⟨rfl, by decide⟩]
    rfl
  · rw [(display_convert_look_policy ⟨"config.ocio"⟩ "lin" "sRGB" "AgX"
          none "").2 (Or.inl rfl)]
    rfl

-- ---------------------------------------------------------------------
-- C4: display conversion only for the reference colorspace
-- ---------------------------------------------------------------------

/-- C4: to_oiiotool_command raises NotImplementedError for every source
colorspace other than the fixed reference colorspace ACES2065-1; when the
source colorspace equals the reference colorspace, the command is the
fixed transpose-ordered, comma-joined 3x3 matrix fragment followed by the
display-conversion fragment. -/
theorem to_oiiotool_command_reference_only :
    ∀ r : OcioConfigRenderer,
      (r.src_colorspace = ACES20651_COLORSPACE →
        r.to_oiiotool_command
          = .ok (["--ccmatrix:transpose=1",
                  "2.521649,-1.136889,-0.384918,-0.275214,1.369705,-0.094392,-0.015925,-0.147806,1.163806"]
                 ++ oiiotool_ocio_display_convert r.config_path r.srgb_lin r.display
                     r.view (some r.look)))
      ∧ (r.src_colorspace ≠ ACES20651_COLORSPACE →
        r.to_oiiotool_command
          = .error "NotImplementedError: Only ACES2065-1 encoded data is supported at this time.") := by
  intro r
  constructor
  · intro h
    unfold OcioConfigRenderer.to_oiiotool_command
    rw [if_pos h]
    rfl
  · intro h
    unfold OcioConfigRenderer.to_oiiotool_command
    rw [if_neg h]

/-- Checks the C4 theorem on fixtures with the reference and with an
unsupported source colorspace. -/
theorem to_oiiotool_command_reference_only_witness :
    sampleRenderer.to_oiiotool_command
        = .ok (["--ccmatrix:transpose=1",
                "2.521649,-1.136889,-0.384918,-0.275214,1.369705,-0.094392,-0.015925,-0.147806,1.163806"]
               ++ oiiotool_ocio_display_convert sampleRenderer.config_path
                   sampleRenderer.srgb_lin sampleRenderer.display sampleRenderer.view
                   (some sampleRenderer.look))
    ∧ sampleRendererSRGB.to_oiiotool_command
        = .error "NotImplementedError: Only ACES2065-1 encoded data is supported at this time." :=
  ⟨(to_oiiotool_command_reference_only sampleRenderer).1 rfl,
   (to_oiiotool_command_reference_only sampleRendererSRGB).2 (by decide)⟩

-- ---------------------------------------------------------------------
-- C9: registry identifier uniqueness
-- ---------------------------------------------------------------------

/-- C9: in the full set of registered renderer builders (12 entries) all
identifier values are pairwise distinct, and all registered generator
shortname values are pairwise distinct. -/
theorem registry_identifiers_distinct :
    (RENDERER_BUILDERS.map RendererBuilder.identifier).Nodup
    ∧ RENDERER_BUILDERS.length = 12
    ∧ (GENERATORS.map GeneratorClass.shortname).Nodup := by
  refine ⟨by decide, rfl, by decide⟩

-- ---------------------------------------------------------------------
-- C1: ComparisonRender serialization round trip
-- ---------------------------------------------------------------------

/-- C1 (amended): for every constructible ComparisonRender whose renderer
is non-null, from_dict(to_dict(r)) reconstructs a render equal to r — in
particular its destination path, source paths (as normalized strings),
renderer (hence its filename) and generator (hence its shortname and
parameters) all equal the original.  For a render whose renderer is null
(the Combined-generator case) to_dict itself raises AttributeError, so no
such render round-trips. -/
theorem comparison_render_round_trip :
    (∀ (g : BaseGenerator) (rd : OcioConfigRenderer) (srcs : List PyPath) (dst : PyPath),
        ebind (ComparisonRender.to_dict ⟨g, some rd, srcs, dst⟩) ComparisonRender.from_dict
          = .ok ⟨g, some rd, srcs, dst⟩)
    ∧ (∀ (g : BaseGenerator) (srcs : List PyPath) (dst : PyPath),
        ComparisonRender.to_dict ⟨g, none, srcs, dst⟩
          = .error "AttributeError: NoneType object has no attribute to_dict") := by
  constructor
  · intro g rd srcs dst
    rw [renderToDict_some, ebind_ok, renderFromDict_renderJson]
  · intro g srcs dst
    rfl

/-- C1 counterexample: a constructible render with a null renderer (the
Combined-generator case) does not round-trip: to_dict raises
AttributeError before from_dict can run. -/
theorem comparison_render_null_renderer_counterexample :
    ebind (ComparisonRender.to_dict
             ⟨BaseGenerator.GeneratorCombined, none, [⟨"a.jpg"⟩], ⟨"out.jpg"⟩⟩)
          ComparisonRender.from_dict
      = .error "AttributeError: NoneType object has no attribute to_dict" := rfl

-- ---------------------------------------------------------------------
-- C2: session append order and its serialization round trip
-- ---------------------------------------------------------------------

/-- C2: add_render appends at the end of the renders list: after adding
renders A, B, C in sequence to a fresh session, session.renders equals
[A, B, C], and the whole session (hence that order) is reproduced by a
to_json followed by from_json round trip (the JSON string encoding
between the two is the identity on these trees; each render carries a
non-null renderer, as every render produced by from_dict does). -/
theorem session_append_order_round_trip :
    ∀ (asset : ImageAsset)
      (gA gB gC : BaseGenerator) (rdA rdB rdC : OcioConfigRenderer)
      (sA sB sC : List PyPath) (dA dB dC : PyPath),
      ((((ComparisonSession.mk asset []).add_render ⟨gA, some rdA, sA, dA⟩).add_render
          ⟨gB, some rdB, sB, dB⟩).add_render ⟨gC, some rdC, sC, dC⟩).renders
        = [⟨gA, some rdA, sA, dA⟩, ⟨gB, some rdB, sB, dB⟩, ⟨gC, some rdC, sC, dC⟩]
      ∧ ebind (ComparisonSession.to_json
                ((((ComparisonSession.mk asset []).add_render ⟨gA, some rdA, sA, dA⟩).add_render
                    ⟨gB, some rdB, sB, dB⟩).add_render ⟨gC, some rdC, sC, dC⟩))
              ComparisonSession.from_json
        = .ok ((((ComparisonSession.mk asset []).add_render ⟨gA, some rdA, sA, dA⟩).add_render
                  ⟨gB, some rdB, sB, dB⟩).add_render ⟨gC, some rdC, sC, dC⟩) := by
  intro asset gA gB gC rdA rdB rdC sA sB sC dA dB dC
  constructor
  · rfl
  · show ebind (ComparisonSession.to_json
            ⟨asset, [⟨gA, some rdA, sA, dA⟩, ⟨gB, some rdB, sB, dB⟩, ⟨gC, some rdC, sC, dC⟩]⟩)
          ComparisonSession.from_json
        = .ok ⟨asset, [⟨gA, some rdA, sA, dA⟩, ⟨gB, some rdB, sB, dB⟩, ⟨gC, some rdC, sC, dC⟩]⟩
    simp [ComparisonSession.to_json, ComparisonSession.from_json,
          ComparisonSession.to_dict, ComparisonSession.from_dict,
          exceptMapList, renderToDict_some, renderFromDict_renderJson,
          jsonFields, jsonGetObj, jsonStr]

-- ---------------------------------------------------------------------
-- C8: source-path and renderer requirements of the generator run methods
-- ---------------------------------------------------------------------

/-- C8 (amended): the ExposureBands and FullFrame run methods require a
non-empty source path list and a non-null renderer: with no source paths
they raise IndexError (whatever the renderer), and with a null renderer
they raise AttributeError.  Source paths beyond the first are silently
ignored, not rejected: run on p :: rest equals run on [p] alone. -/
theorem generator_run_requirements :
    ∀ (band_offset : ℚ) (max_height : ℤ) (dst : PyPath)
      (renderer : Option OcioConfigRenderer) (p : PyPath) (rest : List PyPath),
      GeneratorExposureBands.run band_offset [] dst renderer
          = .error "IndexError: list index out of range"
      ∧ GeneratorFull.run max_height [] dst renderer
          = .error "IndexError: list index out of range"
      ∧ GeneratorExposureBands.run band_offset (p :: rest) dst none
          = .error "AttributeError: NoneType object has no attribute look"
      ∧ GeneratorFull.run max_height (p :: rest) dst none
          = .error "AttributeError: NoneType object has no attribute look"
      ∧ GeneratorExposureBands.run band_offset (p :: rest) dst renderer
          = GeneratorExposureBands.run band_offset [p] dst renderer
      ∧ GeneratorFull.run max_height (p :: rest) dst renderer
          = GeneratorFull.run max_height [p] dst renderer := by
  intro band_offset max_height dst renderer p rest
  exact ⟨rfl, rfl, rfl, rfl, rfl, rfl⟩

/-- C8 counterexample: GeneratorExposureBands.run succeeds on a two-path
source list with a valid renderer (the second path is silently ignored),
so run is not restricted to exactly one source path. -/
theorem generator_run_two_sources_counterexample :
    (GeneratorExposureBands.run (9/20) [⟨"a.exr"⟩, ⟨"b.exr"⟩] ⟨"out.jpg"⟩
        (some sampleRenderer)).isOk = true := by
  have hcmd : sampleRenderer.to_oiiotool_command
      = .ok (oiiotool_AP0_to_sRGB
             ++ oiiotool_ocio_display_convert ⟨"AgX/config.ocio"⟩ "Linear BT.709"
                 "sRGB" "Appearance Punchy" (some "")) := rfl
  have hexpo := expoBands_closed_form (pyPathStr ⟨"a.exr"⟩) 7 2 (1/5) (9/20)
      (oiiotool_AP0_to_sRGB
       ++ oiiotool_ocio_display_convert ⟨"AgX/config.ocio"⟩ "Linear BT.709"
           "sRGB" "Appearance Punchy" (some ""))
      (by decide) (by decide) (by norm_num) (by norm_num)
  unfold GeneratorExposureBands.run
  simp only [ebind_ok, hcmd, hexpo]
  rfl
